import Mathlib

/-!
Verification of the event-messaging layer of the product-service repository:
envelope codec with dual field-naming dialects, stream topology, the
publisher path, and the consumer dispatch/acknowledgment path.

The TypeScript sources are shallowly embedded: JSON values become an
inductive `JValue`, JavaScript truthiness and `||` become `truthy`/`jsOr`,
thrown exceptions become `Except`, and effectful results (logging,
acknowledgment, span bookkeeping) become explicit result records.
`JSON.parse` is a host builtin, so the consumer model takes a `parse`
parameter in which `none` models a thrown `SyntaxError`.
-/

/-- A JSON value as produced by `JSON.parse`. Numbers are modelled as
integers (no claim depends on fractional values). -/
inductive JValue : Type where
  | jnull : JValue
  | jbool : Bool → JValue
  | jnum : Int → JValue
  | jstr : String → JValue
  | jarr : List JValue → JValue
  | jobj : List (String × JValue) → JValue

/-- JavaScript truthiness of a defined value: `null`, `false`, `0` and `""`
are falsy; arrays and objects (even empty ones) are truthy. -/
def truthy : JValue → Bool
  | .jnull => false
  | .jbool b => b
  | .jnum n => !(n == 0)
  | .jstr s => !(s == "")
  | .jarr _ => true
  | .jobj _ => true

/-- Truthiness of a possibly-`undefined` value (`none` = `undefined`). -/
def optTruthy : Option JValue → Bool
  | none => false
  | some v => truthy v

/-- JavaScript `a || b` on possibly-`undefined` values. -/
def jsOr (a b : Option JValue) : Option JValue :=
  bif optTruthy a then a else b

/-- JavaScript property access `o[key]` on a parsed JSON value: `undefined`
(`none`) when the value is not an object or the key is absent. Property
access on `null` throws instead; that case is handled at the call site. -/
def assocGet : List (String × JValue) → String → Option JValue
  | [], _ => none
  | (k, v) :: rest, key => bif k == key then some v else assocGet rest key

/-- `jget raw key` is `raw[key]` for any defined, non-`null` value. -/
def jget : JValue → String → Option JValue
  | .jobj kvs, key => assocGet kvs key
  | _, _ => none

/-- Whether `sub` is a leading segment of `s` (on character lists). -/
def listStartsWith : List Char → List Char → Bool
  | _, [] => true
  | [], _ :: _ => false
  | a :: as, b :: bs => a == b && listStartsWith as bs

/-- Whether `sub` occurs contiguously inside `s` (on character lists). -/
def listHasInfix : List Char → List Char → Bool
  | [], sub => sub.isEmpty
  | a :: rest, sub => listStartsWith (a :: rest) sub || listHasInfix rest sub

/-- `String.includes` from JavaScript: substring containment. -/
def jsIncludes (s sub : String) : Bool :=
  listHasInfix s.toList sub.toList

/-- The `EventEnvelope` interface of `events.ts`: the unit of transport.
`traceContext` is a string-keyed carrier map; `metadata` an open map. -/
structure EventEnvelope : Type where
  eventId : String
  eventType : String
  timestamp : String
  source : String
  version : String
  correlationId : Option String
  causationId : Option String
  traceContext : Option (List (String × String))
  metadata : Option (List (String × JValue))
  data : JValue

/-- `createEventEnvelope` of `events.ts`. `uuidv4()` and
`new Date().toISOString()` are host effects, passed in as the `eventId`
and `timestamp` arguments; `version` is the constant `'1.0.0'`. -/
def createEventEnvelope (eventType source : String) (data : JValue)
    (eventId timestamp : String)
    (correlationId causationId : Option String)
    (traceContext : Option (List (String × String)))
    (metadata : Option (List (String × JValue))) : EventEnvelope :=
  { eventId := eventId
    eventType := eventType
    timestamp := timestamp
    source := source
    version := "1.0.0"
    correlationId := correlationId
    causationId := causationId
    traceContext := traceContext
    metadata := metadata
    data := data }

/-- The envelope as reconstructed by the consumer's normalization step
(`RedisStreamsConsumer.processMessage`, lines 328-339). Every field may be
`undefined` there, since the raw object is unvalidated. -/
structure DecodedEnvelope : Type where
  eventId : Option JValue
  eventType : Option JValue
  timestamp : Option JValue
  source : Option JValue
  version : Option JValue
  correlationId : Option JValue
  causationId : Option JValue
  traceContext : Option JValue
  metadata : Option JValue
  data : Option JValue

/-- The consumer's dialect normalization (`processMessage` lines 328-339):
each multi-word field is read as `raw.camelCase || raw.snake_case`; the
single-word fields are read directly. -/
def normalizeEnvelope (raw : JValue) : DecodedEnvelope :=
  { eventId := jsOr (jget raw "eventId") (jget raw "event_id")
    eventType := jsOr (jget raw "eventType") (jget raw "event_type")
    timestamp := jget raw "timestamp"
    source := jget raw "source"
    version := jget raw "version"
    correlationId := jsOr (jget raw "correlationId") (jget raw "correlation_id")
    causationId := jsOr (jget raw "causationId") (jget raw "causation_id")
    traceContext := jsOr (jget raw "traceContext") (jget raw "trace_context")
    metadata := jget raw "metadata"
    data := jget raw "data" }

/-- A carrier map rendered as a JSON object of string values. -/
def strMapToJ (m : List (String × String)) : JValue :=
  .jobj (m.map (fun kv => (kv.1, .jstr kv.2)))

/-- One key-value entry when the value is present, nothing when it is
`undefined` — `JSON.stringify` omits `undefined`-valued properties. -/
def optEntry (k : String) (v : Option JValue) : List (String × JValue) :=
  match v with
  | some j => [(k, j)]
  | none => []

/-- The object-level result of the publisher-side `JSON.stringify(envelope)`
(`EventPublisher.publish` line 69) followed by `JSON.parse` on delivery:
`parse (stringify o) = o` for JSON-representable objects, so encoding is
modelled at the object level, with the camelCase keys of `events.ts` in
object-literal order. -/
def encodeCamel (e : EventEnvelope) : JValue :=
  .jobj ([("eventId", .jstr e.eventId), ("eventType", .jstr e.eventType),
          ("timestamp", .jstr e.timestamp), ("source", .jstr e.source),
          ("version", .jstr e.version)]
    ++ optEntry "correlationId" (e.correlationId.map .jstr)
    ++ optEntry "causationId" (e.causationId.map .jstr)
    ++ optEntry "traceContext" (e.traceContext.map strMapToJ)
    ++ optEntry "metadata" (e.metadata.map .jobj)
    ++ [("data", e.data)])

/-- Modelled from the spec: the snake_case wire encoding of the same
envelope, as emitted by the ecosystem's Python/Go producers (§4.1: decode
"MUST accept two field-naming dialects (camelCase and snake_case)"). The
Python/Go producer code is not part of this repository; only the key
names differ from `encodeCamel`. -/
def encodeSnake (e : EventEnvelope) : JValue :=
  .jobj ([("event_id", .jstr e.eventId), ("event_type", .jstr e.eventType),
          ("timestamp", .jstr e.timestamp), ("source", .jstr e.source),
          ("version", .jstr e.version)]
    ++ optEntry "correlation_id" (e.correlationId.map .jstr)
    ++ optEntry "causation_id" (e.causationId.map .jstr)
    ++ optEntry "trace_context" (e.traceContext.map strMapToJ)
    ++ optEntry "metadata" (e.metadata.map .jobj)
    ++ [("data", e.data)])

/-- The spec's field-by-field correspondence (§8 round-trip property):
what "decode reproduces every field of `e`" means for an envelope injected
into the consumer's internal representation. -/
def asDecoded (e : EventEnvelope) : DecodedEnvelope :=
  { eventId := some (.jstr e.eventId)
    eventType := some (.jstr e.eventType)
    timestamp := some (.jstr e.timestamp)
    source := some (.jstr e.source)
    version := some (.jstr e.version)
    correlationId := e.correlationId.map .jstr
    causationId := e.causationId.map .jstr
    traceContext := e.traceContext.map strMapToJ
    metadata := e.metadata.map .jobj
    data := some e.data }

/-- Bookkeeping of one span opened by `withSpan`: which exceptions were
recorded onto it (`span.recordException`) and how many times `span.end()`
ran. -/
structure SpanLog (E : Type) : Type where
  recorded : List E
  endCount : Nat
  deriving DecidableEq

/-- Shallow embedding of `withSpan` (tracing.ts lines 166-186). The body
`fn` is represented by its outcome: `.ok a` for a normal (possibly early)
return of `a`, `.error e` for a thrown exception `e`. The `try` block
returns `fn`'s result; the `catch` block runs `span.recordException(error)`
and re-throws the same error; the `finally` block runs `span.end()` on
both paths. The returned pair is (result propagated to the caller, span
bookkeeping). -/
def withSpan {E A : Type} (fn : Except E A) : Except E A × SpanLog E :=
  match fn with
  | .ok a => (.ok a, { recorded := [], endCount := 1 })
  | .error e => (.error e, { recorded := [e], endCount := 1 })

/-- Characters before the first `.`; the whole list when no `.` occurs. -/
def takeUntilDot : List Char → List Char
  | [] => []
  | c :: rest => bif c == '.' then [] else c :: takeUntilDot rest

/-- `eventType.split('.')[0]` from both `getStreamName` implementations:
the domain segment of a dot-namespaced event type (the whole string when
it contains no dot, the empty string when it starts with one). -/
def domainOf (eventType : String) : String :=
  ⟨takeUntilDot eventType.data⟩

namespace EventPublisher

/-- `EventPublisher.getStreamName` (publisher, lines 85-89): takes the
text before the first `.` of the event type and appends `s` — the
publisher pluralizes the domain. `streamPref` is the constructor's
`streamPrefix`, defaulted to `"events"`. -/
def getStreamName (streamPref eventType : String) : String :=
  streamPref ++ ":" ++ domainOf eventType ++ "s"

end EventPublisher

namespace RedisStreamsConsumer

/-- `RedisStreamsConsumer.getStreamName` (consumer, lines 263-268): takes
the text before the first `.` of the event type with no pluralization and
a hard-coded `events:` namespace. -/
def getStreamName (eventType : String) : String :=
  "events:" ++ domainOf eventType

/-- Observable outcome of one `RedisStreamsConsumer.subscribe` call. -/
structure SubscribeResult : Type where
  /-- `this.handlers.set(eventType, handler)` ran. -/
  handlerRegistered : Bool
  /-- `this.streams.add(stream)` ran. -/
  streamAdded : Bool
  /-- `xgroup CREATE` succeeded and `Created consumer group` was logged. -/
  groupCreated : Bool
  /-- `Failed to create consumer group` was logged. -/
  loggedGroupError : Bool
  /-- `subscribe` itself threw to its caller. -/
  raised : Bool
  /-- `startConsuming()` (the poll loop) was started by this call. -/
  pollLoopStarted : Bool
  deriving DecidableEq

/-- Shallow embedding of `RedisStreamsConsumer.subscribe` (lines 239-261).
`createOutcome` is the broker's answer to `xgroup CREATE` (`.error m`
carries `error.message`); `running` is the instance flag before the call.
The handler is registered and the stream recorded before the group
creation attempt; the `catch` block logs when the message does not
contain `BUSYGROUP` and never re-throws; the poll loop is started
whenever the instance was not already running. -/
def subscribe (createOutcome : Except String Unit) (running : Bool) :
    SubscribeResult :=
  { handlerRegistered := true
    streamAdded := true
    groupCreated := createOutcome.isOk
    loggedGroupError :=
      match createOutcome with
      | .ok _ => false
      | .error m => !(jsIncludes m "BUSYGROUP")
    raised := false
    pollLoopStarted := !running }

end RedisStreamsConsumer

/-- Modelled from the spec: the OpenTelemetry W3C propagation API used by
tracing.ts is an external dependency, so the ambient active trace context
is modelled as the optional `traceparent` value of the active span, and
`propagation.inject` (§4.2: "writes the active trace context into a plain
string map") writes that value under the `traceparent` key when a trace
context is active and writes nothing otherwise. -/
def injectTraceContext (ambient : Option String) :
    List (String × String) :=
  match ambient with
  | some tp => [("traceparent", tp)]
  | none => []

/-- `getCurrentTraceContext` (tracing.ts lines 191-195): inject the active
context into a fresh empty carrier and return it. -/
def getCurrentTraceContext (ambient : Option String) :
    List (String × String) :=
  injectTraceContext ambient

/-- Modelled from the spec: `propagation.extract` (§4.2: parses a trace
context out of a string map; "if absent or malformed, returns a context
with no parent — never raises"), reading the canonical `traceparent`
key (§6). -/
def extractTraceContext (carrier : List (String × String)) :
    Option String :=
  carrier.lookup "traceparent"

/-- What `EventPublisher.publish` (lines 31-83) appends to the broker: the
resolved stream, the single message field name, and the envelope placed
under it. -/
structure PublishedMessage : Type where
  stream : String
  fieldKey : String
  envelope : EventEnvelope

namespace EventPublisher

/-- Shallow embedding of `EventPublisher.publish` (lines 31-83): capture
the ambient trace context with `getCurrentTraceContext` (before the
producer span is opened), build the envelope via `createEventEnvelope`
with a fresh `eventId`/`timestamp` (host effects, passed in), resolve the
stream with `getStreamName`, and append the encoded envelope under the
field `'data'` (`xadd ... 'data' JSON.stringify(envelope)`). -/
def publish (serviceName streamPref : String) (ambient : Option String)
    (eventType : String) (data : JValue) (eventId timestamp : String)
    (correlationId causationId : Option String)
    (metadata : Option (List (String × JValue))) : PublishedMessage :=
  let traceContext := getCurrentTraceContext ambient
  let envelope := createEventEnvelope eventType serviceName data
    eventId timestamp correlationId causationId (some traceContext) metadata
  { stream := getStreamName streamPref eventType
    fieldKey := "data"
    envelope := envelope }

end EventPublisher

namespace RedisStreamsConsumer

/-- The field-pairing loop of `processMessage` (lines 312-315): Redis
returns a flat `[key, value, key, value, ...]` array. A trailing key with
no value is assigned `undefined` in JavaScript; `""` models it here, which
is equivalent for every read the code performs (all are truthiness
checks). -/
def pairUp : List String → List (String × String)
  | [] => []
  | [k] => [(k, "")]
  | k :: v :: rest => (k, v) :: pairUp rest

/-- String-valued truthiness for the broker field map (`undefined` or `""`
are falsy). -/
def strTruthy : Option String → Bool
  | none => false
  | some s => !(s == "")

/-- JavaScript `a || b` on possibly-`undefined` strings. -/
def jsOrStr (a b : Option String) : Option String :=
  bif strTruthy a then a else b

/-- Lookup in the paired field map (first match, as for distinct keys). -/
def fieldGet (m : List (String × String)) (key : String) : Option String :=
  match m with
  | [] => none
  | (k, v) :: rest => bif k == key then some v else fieldGet rest key

/-- A registered handler, represented by its outcome on each decoded
envelope: `.ok ()` for normal completion, `.error e` for a thrown
exception. -/
def Handler (E : Type) : Type := DecodedEnvelope → Except E Unit

/-- The `eventType → handler` registry (`this.handlers`). -/
def Registry (E : Type) : Type := List (String × Handler E)

/-- `this.handlers.get(key)`: first binding for `key`; a non-string or
`undefined` `envelope.eventType` matches no string key. -/
def registryGet {E : Type} : Registry E → String → Option (Handler E)
  | [], _ => none
  | (k, h) :: rest, key => bif k == key then some h else registryGet rest key

/-- Observable outcome of one `processMessage` call. -/
structure ProcessResult (E : Type) : Type where
  /-- `xack` was issued for the entry. -/
  acked : Bool
  /-- `Message missing data field` was logged (warn). -/
  warnedMissingData : Bool
  /-- `Failed to process message` was logged (error) by the outer catch. -/
  loggedFailure : Bool
  /-- A registered handler was invoked. -/
  handlerRan : Bool
  /-- Bookkeeping of the consumer span, when `withSpan` was reached. -/
  span : Option (SpanLog E)

/-- Shallow embedding of `RedisStreamsConsumer.processMessage`
(lines 309-378). `parse` stands for the host builtin `JSON.parse`
(`none` = thrown `SyntaxError`). The whole body runs in a `try` whose
`catch` logs `Failed to process message` and does nothing else, so any
throw before the final `xack` leaves the entry unacknowledged. Reads of
the parsed value mirror JavaScript: property access on `null` throws
(caught by the outer catch); on any other non-object value it yields
`undefined`. `span.setAttribute` with an `undefined` value is ignored by
the OpenTelemetry API and cannot throw. The handler lookup uses the
normalized `envelope.eventType`; when no handler is registered the span
body completes normally and the entry is still acknowledged. -/
def processMessage {E : Type} (handlers : Registry E)
    (parse : String → Option JValue) (fields : List String) :
    ProcessResult E :=
  let m := pairUp fields
  let envelopeData := jsOrStr (fieldGet m "data") (fieldGet m "payload")
  match envelopeData with
  | none =>
    -- `if (!envelopeData)` (lines 319-323): warn, acknowledge, return
    { acked := true, warnedMissingData := true, loggedFailure := false
      handlerRan := false, span := none }
  | some s =>
    bif s == "" then
      -- an empty string is also falsy for `if (!envelopeData)`
      { acked := true, warnedMissingData := true, loggedFailure := false
        handlerRan := false, span := none }
    else
      match parse s with
      | none =>
        -- line 325 throws SyntaxError → outer catch (lines 371-377)
        { acked := false, warnedMissingData := false, loggedFailure := true
          handlerRan := false, span := none }
      | some .jnull =>
        -- property access on null at line 329 throws → outer catch
        { acked := false, warnedMissingData := false, loggedFailure := true
          handlerRan := false, span := none }
      | some raw =>
        let env := normalizeEnvelope raw
        let hOpt : Option (Handler E) :=
          match env.eventType with
          | some (.jstr t) => registryGet handlers t
          | _ => none
        let outcome : Except E Unit :=
          match hOpt with
          | some h => h env
          | none => .ok ()
        match withSpan outcome with
        | (.ok _, log) =>
          -- line 370: acknowledge after the span body completed
          { acked := true, warnedMissingData := false, loggedFailure := false
            handlerRan := hOpt.isSome, span := some log }
        | (.error _, log) =>
          -- handler threw: withSpan recorded and re-threw → outer catch
          { acked := false, warnedMissingData := false, loggedFailure := true
            handlerRan := hOpt.isSome, span := some log }

end RedisStreamsConsumer

/-- Decoding the camelCase rendering of an envelope reproduces every
field, provided the required identifiers and any present optional string
fields are non-empty (JavaScript `||` treats `""` as absent). -/
theorem decode_encodeCamel (e : EventEnvelope)
    (hid : e.eventId ≠ "") (hty : e.eventType ≠ "")
    (hcorr : ∀ s, e.correlationId = some s → s ≠ "")
    (hcaus : ∀ s, e.causationId = some s → s ≠ "") :
    normalizeEnvelope (encodeCamel e) = asDecoded e := by
  rcases e with ⟨eid, ety, ts, src, ver, corr, caus, tc, md, d⟩
  simp only at hid hty hcorr hcaus
  rcases corr with _ | c <;> rcases caus with _ | c2 <;>
    rcases tc with _ | t <;> rcases md with _ | m <;>
    simp_all [normalizeEnvelope, encodeCamel, asDecoded, jget, assocGet,
      jsOr, optTruthy, truthy, optEntry, strMapToJ, Bool.cond_eq_if]

/-- Decoding the snake_case rendering of an envelope reproduces every
field, under the same non-emptiness conditions. -/
theorem decode_encodeSnake (e : EventEnvelope)
    (hid : e.eventId ≠ "") (hty : e.eventType ≠ "")
    (hcorr : ∀ s, e.correlationId = some s → s ≠ "")
    (hcaus : ∀ s, e.causationId = some s → s ≠ "") :
    normalizeEnvelope (encodeSnake e) = asDecoded e := by
  rcases e with ⟨eid, ety, ts, src, ver, corr, caus, tc, md, d⟩
  simp only at hid hty hcorr hcaus
  rcases corr with _ | c <;> rcases caus with _ | c2 <;>
    rcases tc with _ | t <;> rcases md with _ | m <;>
    simp_all [normalizeEnvelope, encodeSnake, asDecoded, jget, assocGet,
      jsOr, optTruthy, truthy, optEntry, strMapToJ, Bool.cond_eq_if]

/-- C7: for every function passed to `withSpan` and every outcome of it
(normal return or exception), the span is ended exactly once; on success
the result equals the function's result, and a thrown exception is
recorded onto the span and re-raised unchanged. -/
theorem C7_withSpan_ends_once_records_and_reraises {E A : Type}
    (fn : Except E A) :
    (withSpan fn).2.endCount = 1 ∧ (withSpan fn).1 = fn ∧
    (∀ e : E, fn = .error e → (withSpan fn).2.recorded = [e]) ∧
    (∀ a : A, fn = .ok a → (withSpan fn).2.recorded = []) := by
  cases fn <;> simp [withSpan]

/-- Witness for C7 at a concrete throwing body and a concrete succeeding
body. -/
theorem C7_witness :
    (withSpan (E := String) (A := Nat) (.error "boom")).2.endCount = 1 ∧
    (withSpan (E := String) (A := Nat) (.error "boom")).2.recorded = ["boom"] ∧
    (withSpan (E := String) (A := Nat) (.ok 7)).1 = .ok 7 :=
  ⟨(C7_withSpan_ends_once_records_and_reraises (.error "boom")).1,
   (C7_withSpan_ends_once_records_and_reraises (.error "boom")).2.2.1 "boom" rfl,
   (C7_withSpan_ends_once_records_and_reraises (.ok 7)).2.1⟩

/-- C2 fails on the code: for the event type `order.created` the
publisher-side derivation (with its default prefix `events`) pluralizes
the domain while the consumer-side derivation does not, so the two sides
name different physical streams. -/
theorem C2_counterexample :
    EventPublisher.getStreamName "events" "order.created" = "events:orders" ∧
    RedisStreamsConsumer.getStreamName "order.created" = "events:order" ∧
    EventPublisher.getStreamName "events" "order.created" ≠
      RedisStreamsConsumer.getStreamName "order.created" := by
  refine ⟨by decide, by decide, by decide⟩

/-- C2 amended: for every event type, the publisher-side stream name
(with the default `events` prefix) is exactly the consumer-side stream
name with a trailing `s` appended — the two derivations never agree. -/
theorem C2_amended_pluralization_divergence (eventType : String) :
    EventPublisher.getStreamName "events" eventType =
      RedisStreamsConsumer.getStreamName eventType ++ "s" ∧
    EventPublisher.getStreamName "events" eventType ≠
      RedisStreamsConsumer.getStreamName eventType := by
  constructor
  · rfl
  · intro h
    have hlen := congrArg String.length h
    have h1 : ("s" : String).length = 1 := rfl
    have h2 : ("events" : String).length = 6 := rfl
    have h3 : (":" : String).length = 1 := rfl
    have h4 : ("events:" : String).length = 7 := rfl
    simp only [EventPublisher.getStreamName,
      RedisStreamsConsumer.getStreamName, String.length_append] at hlen
    omega

/-- C4 fails on the code: a group-creation error that is not
`BUSYGROUP` is logged but swallowed — `subscribe` does not raise, the
handler stays registered, and the poll loop is still started. -/
theorem C4_counterexample :
    (RedisStreamsConsumer.subscribe
      (.error "NOPERM this user has no permissions") false).pollLoopStarted
        = true ∧
    (RedisStreamsConsumer.subscribe
      (.error "NOPERM this user has no permissions") false).raised = false ∧
    (RedisStreamsConsumer.subscribe
      (.error "NOPERM this user has no permissions") false).handlerRegistered
        = true := by
  refine ⟨rfl, rfl, rfl⟩

/-- C4 amended: group creation is attempted idempotently — an error whose
message contains `BUSYGROUP` (group already exists) is swallowed silently
(no raise, no error log, no duplicate creation), while any other creation
error is logged but equally swallowed: the handler remains registered and
the poll loop is still started whenever the instance was not already
running. -/
theorem C4_amended_creation_errors_swallowed (running : Bool) (m : String) :
    (RedisStreamsConsumer.subscribe (.error m) running).raised = false ∧
    (RedisStreamsConsumer.subscribe (.error m) running).handlerRegistered
      = true ∧
    (RedisStreamsConsumer.subscribe (.error m) running).pollLoopStarted
      = !running ∧
    (jsIncludes m "BUSYGROUP" = true →
      (RedisStreamsConsumer.subscribe (.error m) running).loggedGroupError
        = false) ∧
    (jsIncludes m "BUSYGROUP" = false →
      (RedisStreamsConsumer.subscribe (.error m) running).loggedGroupError
        = true) ∧
    (RedisStreamsConsumer.subscribe (.ok ()) running).raised = false := by
  refine ⟨rfl, rfl, rfl, ?_, ?_, rfl⟩ <;>
    intro h <;> simp [RedisStreamsConsumer.subscribe, h]

/-- Witness for the amended C4 at a `BUSYGROUP` message and at an
unrelated error message, on a not-yet-running instance. -/
theorem C4_amended_witness :
    (RedisStreamsConsumer.subscribe
      (Except.error "BUSYGROUP already exists") false).loggedGroupError
        = false ∧
    (RedisStreamsConsumer.subscribe
      (Except.error "BUSYGROUP already exists") false).raised = false ∧
    (RedisStreamsConsumer.subscribe
      (Except.error "ERR wrong arg") false).loggedGroupError = true :=
  ⟨(C4_amended_creation_errors_swallowed false
      "BUSYGROUP already exists").2.2.2.1 (by decide),
   (C4_amended_creation_errors_swallowed false
      "BUSYGROUP already exists").1,
   (C4_amended_creation_errors_swallowed false
      "ERR wrong arg").2.2.2.2.1 (by decide)⟩

open RedisStreamsConsumer in
/-- C9: a delivered broker message whose field-set carries neither a
usable `data` field nor a usable `payload` field is logged as a warning
and acknowledged without invoking any handler (and without opening a
consumer span). -/
theorem C9_missing_wrapper_warned_and_acked {E : Type}
    (handlers : Registry E) (parse : String → Option JValue)
    (fields : List String)
    (hd : fieldGet (pairUp fields) "data" = none)
    (hp : fieldGet (pairUp fields) "payload" = none) :
    processMessage handlers parse fields =
      { acked := true, warnedMissingData := true, loggedFailure := false,
        handlerRan := false, span := none } := by
  simp [RedisStreamsConsumer.processMessage, hd, hp, jsOrStr, strTruthy]

open RedisStreamsConsumer in
/-- Witness for C9 at the spec's scenario: a message whose fields carry
the envelope keys directly with no `data`/`payload` wrapper. -/
theorem C9_witness :
    processMessage ([] : Registry String) (fun _ => none)
      ["event_type", "user.registered", "event_id", "abc"] =
      { acked := true, warnedMissingData := true, loggedFailure := false,
        handlerRan := false, span := none } :=
  C9_missing_wrapper_warned_and_acked [] (fun _ => none)
    ["event_type", "user.registered", "event_id", "abc"] rfl rfl

open RedisStreamsConsumer in
/-- C10: a message that decodes to an envelope whose event type has no
registered handler invokes no handler, yet the entry is still
acknowledged (the consumer span completes normally and `xack` runs). -/
theorem C10_unhandled_event_type_acked {E : Type}
    (handlers : Registry E) (parse : String → Option JValue)
    (fields : List String) (s t : String) (kvs : List (String × JValue))
    (hs : jsOrStr (fieldGet (pairUp fields) "data")
            (fieldGet (pairUp fields) "payload") = some s)
    (hne : s ≠ "")
    (hparse : parse s = some (.jobj kvs))
    (ht : (normalizeEnvelope (.jobj kvs)).eventType = some (.jstr t))
    (hreg : registryGet handlers t = none) :
    processMessage handlers parse fields =
      { acked := true, warnedMissingData := false, loggedFailure := false,
        handlerRan := false,
        span := some { recorded := [], endCount := 1 } } := by
  simp [RedisStreamsConsumer.processMessage, hs, hne, hparse, ht, hreg,
    withSpan, Bool.cond_eq_if]

open RedisStreamsConsumer in
/-- Witness for C10: a registry holding only an `order.created` handler
receives a `user.registered` envelope; no handler runs, the entry is
acknowledged. -/
theorem C10_witness :
    processMessage
      [("order.created", fun _ => Except.error "unused")]
      (fun _ => some (.jobj [("eventType", .jstr "user.registered"),
        ("eventId", .jstr "abc"), ("data", .jobj [])]))
      ["data", "x"] =
      { acked := true, warnedMissingData := false, loggedFailure := false,
        handlerRan := false,
        span := some { recorded := ([] : List String), endCount := 1 } } :=
  C10_unhandled_event_type_acked
    [("order.created", fun _ => Except.error "unused")]
    (fun _ => some (.jobj [("eventType", .jstr "user.registered"),
      ("eventId", .jstr "abc"), ("data", .jobj [])]))
    ["data", "x"] "x" "user.registered"
    [("eventType", .jstr "user.registered"), ("eventId", .jstr "abc"),
      ("data", .jobj [])]
    rfl (by decide) rfl rfl rfl

open RedisStreamsConsumer in
/-- C1: for a delivered message that decodes to a valid envelope with a
registered handler, the entry is acknowledged if and only if the handler
completes without raising; when the handler raises, the exception is
recorded on the consumer span, the failure is logged, and the entry is
not acknowledged. -/
theorem C1_ack_iff_handler_succeeds {E : Type}
    (handlers : Registry E) (parse : String → Option JValue)
    (fields : List String) (s t : String) (kvs : List (String × JValue))
    (h : Handler E)
    (hs : jsOrStr (fieldGet (pairUp fields) "data")
            (fieldGet (pairUp fields) "payload") = some s)
    (hne : s ≠ "")
    (hparse : parse s = some (.jobj kvs))
    (ht : (normalizeEnvelope (.jobj kvs)).eventType = some (.jstr t))
    (hreg : registryGet handlers t = some h) :
    ((processMessage handlers parse fields).acked = true ↔
      h (normalizeEnvelope (.jobj kvs)) = .ok ()) ∧
    (∀ e : E, h (normalizeEnvelope (.jobj kvs)) = .error e →
      (processMessage handlers parse fields).acked = false ∧
      (processMessage handlers parse fields).loggedFailure = true ∧
      (processMessage handlers parse fields).handlerRan = true ∧
      (processMessage handlers parse fields).span =
        some { recorded := [e], endCount := 1 }) := by
  cases hout : h (normalizeEnvelope (.jobj kvs)) with
  | ok _ =>
    simp [RedisStreamsConsumer.processMessage, hs, hne, hparse, ht, hreg,
      hout, withSpan, Bool.cond_eq_if]
  | error e =>
    simp [RedisStreamsConsumer.processMessage, hs, hne, hparse, ht, hreg,
      hout, withSpan, Bool.cond_eq_if]

open RedisStreamsConsumer in
/-- Witness for C1: a handler that raises on one message (left pending,
exception recorded) while the same registry acknowledges a message whose
handler run succeeds. -/
theorem C1_witness :
    (processMessage
      [("order.created", fun env =>
        bif optTruthy env.data then Except.ok () else Except.error "boom")]
      (fun _ => some (.jobj [("eventType", .jstr "order.created"),
        ("data", .jnull)]))
      ["data", "m"]).acked = false ∧
    (processMessage
      [("order.created", fun env =>
        bif optTruthy env.data then Except.ok () else Except.error "boom")]
      (fun _ => some (.jobj [("eventType", .jstr "order.created"),
        ("data", .jnull)]))
      ["data", "m"]).span =
      some { recorded := ["boom"], endCount := 1 } :=
  ⟨((C1_ack_iff_handler_succeeds
      [("order.created", fun env =>
        bif optTruthy env.data then Except.ok () else Except.error "boom")]
      (fun _ => some (.jobj [("eventType", .jstr "order.created"),
        ("data", .jnull)]))
      ["data", "m"] "m" "order.created"
      [("eventType", .jstr "order.created"), ("data", .jnull)]
      (fun env =>
        bif optTruthy env.data then Except.ok () else Except.error "boom")
      rfl (by decide) rfl rfl rfl).2 "boom" rfl).1,
   ((C1_ack_iff_handler_succeeds
      [("order.created", fun env =>
        bif optTruthy env.data then Except.ok () else Except.error "boom")]
      (fun _ => some (.jobj [("eventType", .jstr "order.created"),
        ("data", .jnull)]))
      ["data", "m"] "m" "order.created"
      [("eventType", .jstr "order.created"), ("data", .jnull)]
      (fun env =>
        bif optTruthy env.data then Except.ok () else Except.error "boom")
      rfl (by decide) rfl rfl rfl).2 "boom" rfl).2.2.2⟩

open RedisStreamsConsumer in
/-- C3 fails on the code: a message whose `payload` field is present but
is not parseable JSON is caught by the outer catch, which logs the
failure and does NOT acknowledge — the entry stays pending (here
`fun s => none` stands for `JSON.parse`, which throws on `not json`). -/
theorem C3_counterexample :
    (processMessage ([] : Registry String) (fun _ => none)
      ["payload", "not json"]).acked = false ∧
    (processMessage ([] : Registry String) (fun _ => none)
      ["payload", "not json"]).loggedFailure = true :=
  ⟨rfl, rfl⟩

open RedisStreamsConsumer in
/-- C3 amended: a delivered message whose payload field is present but
undecodable makes the consumer log the failure WITHOUT acknowledging, so
it remains pending in the group; only a message with no usable
`data`/`payload` field at all is acknowledged immediately. -/
theorem C3_amended_unparseable_left_pending {E : Type}
    (handlers : Registry E) (parse : String → Option JValue)
    (fields : List String) (s : String)
    (hs : jsOrStr (fieldGet (pairUp fields) "data")
            (fieldGet (pairUp fields) "payload") = some s)
    (hne : s ≠ "")
    (hparse : parse s = none) :
    processMessage handlers parse fields =
      { acked := false, warnedMissingData := false, loggedFailure := true,
        handlerRan := false, span := none } := by
  simp [RedisStreamsConsumer.processMessage, hs, hne, hparse,
    Bool.cond_eq_if]

open RedisStreamsConsumer in
/-- Witness for the amended C3 at a concrete unparseable payload. -/
theorem C3_amended_witness :
    processMessage ([] : Registry String) (fun _ => none)
      ["payload", "oops"] =
      { acked := false, warnedMissingData := false, loggedFailure := true,
        handlerRan := false, span := none } :=
  C3_amended_unparseable_left_pending [] (fun _ => none)
    ["payload", "oops"] "oops" rfl (by decide) rfl

/-- C6 fails on the code: an envelope whose optional `correlationId` is
the empty string is a valid envelope (the layer accepts any string), but
the consumer's `||`-based normalization treats `""` as absent, so the
field is not reproduced by decode even in the camelCase encoding. -/
theorem C6_counterexample :
    (normalizeEnvelope (encodeCamel
      { eventId := "e1", eventType := "order.created",
        timestamp := "2024-01-01T00:00:00Z", source := "svc",
        version := "1.0.0", correlationId := some "", causationId := none,
        traceContext := none, metadata := none,
        data := .jobj [] })).correlationId = none ∧
    (asDecoded
      { eventId := "e1", eventType := "order.created",
        timestamp := "2024-01-01T00:00:00Z", source := "svc",
        version := "1.0.0", correlationId := some "", causationId := none,
        traceContext := none, metadata := none,
        data := .jobj [] }).correlationId = some (.jstr "") :=
  ⟨rfl, rfl⟩

/-- C6 amended: for every envelope whose `eventId` and `eventType` are
non-empty and whose present optional string fields (`correlationId`,
`causationId`) are non-empty, decoding the encoded form reproduces every
field, in both the camelCase and the snake_case encoding. -/
theorem C6_amended_roundtrip_both_dialects (e : EventEnvelope)
    (hid : e.eventId ≠ "") (hty : e.eventType ≠ "")
    (hcorr : ∀ s, e.correlationId = some s → s ≠ "")
    (hcaus : ∀ s, e.causationId = some s → s ≠ "") :
    normalizeEnvelope (encodeCamel e) = asDecoded e ∧
    normalizeEnvelope (encodeSnake e) = asDecoded e :=
  ⟨decode_encodeCamel e hid hty hcorr hcaus,
   decode_encodeSnake e hid hty hcorr hcaus⟩

/-- Witness for the amended C6 at a fully-populated concrete envelope. -/
theorem C6_amended_witness :
    normalizeEnvelope (encodeCamel
      { eventId := "e1", eventType := "order.created",
        timestamp := "2024-01-01T00:00:00Z", source := "svc",
        version := "1.0.0", correlationId := some "c1",
        causationId := some "p1",
        traceContext := some [("traceparent", "00-abc-def-01")],
        metadata := some [("k", .jstr "v")],
        data := .jobj [("orderId", .jstr "o1")] }) =
      asDecoded
      { eventId := "e1", eventType := "order.created",
        timestamp := "2024-01-01T00:00:00Z", source := "svc",
        version := "1.0.0", correlationId := some "c1",
        causationId := some "p1",
        traceContext := some [("traceparent", "00-abc-def-01")],
        metadata := some [("k", .jstr "v")],
        data := .jobj [("orderId", .jstr "o1")] } :=
  (C6_amended_roundtrip_both_dialects
      { eventId := "e1", eventType := "order.created",
        timestamp := "2024-01-01T00:00:00Z", source := "svc",
        version := "1.0.0", correlationId := some "c1",
        causationId := some "p1",
        traceContext := some [("traceparent", "00-abc-def-01")],
        metadata := some [("k", .jstr "v")],
        data := .jobj [("orderId", .jstr "o1")] }
      (by decide) (by decide)
      (by intro s hs; cases hs; decide)
      (by intro s hs; cases hs; decide)).1

open RedisStreamsConsumer in
/-- C5: a delivered payload that parses to an object missing all of
`eventId`/`event_id` and `eventType`/`event_type` is acknowledged and
dropped without dispatching any handler (the code raises no explicit
`MalformedEnvelope`; the undefined event type simply matches no
registered handler); and for objects carrying the envelope fields in
either dialect, decode normalizes every field to the single camelCase
internal representation (both dialect renderings decode identically,
given non-empty string fields). -/
theorem C5_missing_ids_dropped_and_dialects_normalized {E : Type}
    (handlers : Registry E) (parse : String → Option JValue)
    (fields : List String) (s : String) (kvs : List (String × JValue))
    (hs : jsOrStr (fieldGet (pairUp fields) "data")
            (fieldGet (pairUp fields) "payload") = some s)
    (hne : s ≠ "")
    (hparse : parse s = some (.jobj kvs))
    (h1 : assocGet kvs "eventId" = none)
    (h2 : assocGet kvs "event_id" = none)
    (h3 : assocGet kvs "eventType" = none)
    (h4 : assocGet kvs "event_type" = none) :
    ((normalizeEnvelope (.jobj kvs)).eventId = none ∧
     (normalizeEnvelope (.jobj kvs)).eventType = none ∧
     (processMessage handlers parse fields).acked = true ∧
     (processMessage handlers parse fields).handlerRan = false) ∧
    (∀ (e : EventEnvelope), e.eventId ≠ "" → e.eventType ≠ "" →
      (∀ u, e.correlationId = some u → u ≠ "") →
      (∀ u, e.causationId = some u → u ≠ "") →
      normalizeEnvelope (encodeSnake e) = normalizeEnvelope (encodeCamel e)) := by
  constructor
  · have hi : (normalizeEnvelope (.jobj kvs)).eventId = none := by
      simp [normalizeEnvelope, jget, h1, h2, jsOr, optTruthy]
    have ht : (normalizeEnvelope (.jobj kvs)).eventType = none := by
      simp [normalizeEnvelope, jget, h3, h4, jsOr, optTruthy]
    refine ⟨hi, ht, ?_⟩
    simp [RedisStreamsConsumer.processMessage, hs, hne, hparse, ht,
      withSpan, Bool.cond_eq_if]
  · intro e he1 he2 he3 he4
    exact (decode_encodeSnake e he1 he2 he3 he4).trans
      (decode_encodeCamel e he1 he2 he3 he4).symm

open RedisStreamsConsumer in
/-- Witness for C5: an object carrying only a timestamp is acknowledged
without dispatch, and a concrete snake_case envelope decodes to the same
internal representation as its camelCase rendering. -/
theorem C5_witness :
    ((normalizeEnvelope (.jobj [("timestamp", .jstr "t")])).eventId
        = none ∧
     (normalizeEnvelope (.jobj [("timestamp", .jstr "t")])).eventType
        = none ∧
     (processMessage ([] : Registry String)
        (fun _ => some (.jobj [("timestamp", .jstr "t")]))
        ["data", "j"]).acked = true ∧
     (processMessage ([] : Registry String)
        (fun _ => some (.jobj [("timestamp", .jstr "t")]))
        ["data", "j"]).handlerRan = false) ∧
    normalizeEnvelope (encodeSnake
      { eventId := "e1", eventType := "user.registered",
        timestamp := "t", source := "svc", version := "1.0.0",
        correlationId := none, causationId := none,
        traceContext := none, metadata := none, data := .jnull }) =
    normalizeEnvelope (encodeCamel
      { eventId := "e1", eventType := "user.registered",
        timestamp := "t", source := "svc", version := "1.0.0",
        correlationId := none, causationId := none,
        traceContext := none, metadata := none, data := .jnull }) :=
  ⟨(C5_missing_ids_dropped_and_dialects_normalized
      ([] : Registry String)
      (fun _ => some (.jobj [("timestamp", .jstr "t")]))
      ["data", "j"] "j" [("timestamp", .jstr "t")]
      rfl (by decide) rfl rfl rfl rfl rfl).1,
   (C5_missing_ids_dropped_and_dialects_normalized
      ([] : Registry String)
      (fun _ => some (.jobj [("timestamp", .jstr "t")]))
      ["data", "j"] "j" [("timestamp", .jstr "t")]
      rfl (by decide) rfl rfl rfl rfl rfl).2
      { eventId := "e1", eventType := "user.registered",
        timestamp := "t", source := "svc", version := "1.0.0",
        correlationId := none, causationId := none,
        traceContext := none, metadata := none, data := .jnull }
      (by decide) (by decide)
      (by intro u hu; cases hu) (by intro u hu; cases hu)⟩

/-- C8: publishing with no explicit trace context stamps the ambient
active trace context into the envelope before append: when a trace
context `tp` is active at the call site, the published envelope's
`traceContext` is the non-empty carrier holding `traceparent = tp`, and
consumer-side extraction of that carrier yields `tp` as the parent
context for the consumer span. -/
theorem C8_publish_stamps_usable_trace_context
    (serviceName streamPref eventType eventId timestamp tp : String)
    (data : JValue) (corr caus : Option String)
    (md : Option (List (String × JValue))) :
    (EventPublisher.publish serviceName streamPref (some tp) eventType data
      eventId timestamp corr caus md).envelope.traceContext =
      some [("traceparent", tp)] ∧
    ([("traceparent", tp)] : List (String × String)) ≠ [] ∧
    extractTraceContext [("traceparent", tp)] = some tp := by
  refine ⟨rfl, by simp, ?_⟩
  simp [extractTraceContext, List.lookup]
